import Mathlib

/-!
Verification of the clippy client (src/clippy.py) against its
natural-language specification.

Part 1: device arbitration (`choose_clip`, clippy.py lines 70-86).
A remote clip is modelled by the two fields `choose_clip` inspects:
the `device_id` entry of the JSON dict (absent key modelled as `none`;
`it.get("device_id", "")` is `deviceId.getD ""`) and `clip_id` as an
identifying payload.
-/

structure RemoteClip where
  deviceId : Option String
  clipId : Nat
deriving Repr, DecidableEq

/-- `it.get("device_id", "")` from the Python source. -/
def getDid (it : RemoteClip) : String :=
  it.deviceId.getD ""

/-- Membership / indexing of the Python dict `newest_per_device`,
as an insertion-ordered association list. -/
def lookupDid (did : String) : List (String × RemoteClip) → Option RemoteClip
  | [] => none
  | (k, v) :: rest => if k = did then some v else lookupDid did rest

/-- One iteration of the Python loop
`for it in items: did = it.get("device_id", ""); if did and did not in newest_per_device: newest_per_device[did] = it`.
Python string truthiness: `did` is truthy iff it is non-empty. -/
def npdStep (acc : List (String × RemoteClip)) (it : RemoteClip) : List (String × RemoteClip) :=
  if getDid it ≠ "" ∧ lookupDid (getDid it) acc = none then acc ++ [(getDid it, it)] else acc

/-- The `newest_per_device` dict built by `choose_clip` (clippy.py lines 76-80). -/
def newest_per_device (items : List RemoteClip) : List (String × RemoteClip) :=
  items.foldl npdStep []

/-- The priority scan of `choose_clip` (clippy.py lines 82-84):
`for did in cfg.priority: if did in newest_per_device: return newest_per_device[did]`. -/
def scanPriority (m : List (String × RemoteClip)) : List String → Option RemoteClip
  | [] => none
  | did :: rest =>
    match lookupDid did m with
    | some it => some it
    | none => scanPriority m rest

/-- `choose_clip(cfg, items)` (clippy.py lines 70-86); only `cfg.priority`
is consulted, so the config is passed as that list. -/
def choose_clip (priority : List String) (items : List RemoteClip) : Option RemoteClip :=
  if items.isEmpty then none
  else if priority.isEmpty then items.head?
  else
    match scanPriority (newest_per_device items) priority with
    | some it => some it
    | none => items.head?

/-- The per-device mapping exactly as the specification words it:
"a mapping from device_id to that device's newest clip (first occurrence
in `items` order)" — with no condition on the device_id being non-empty. -/
def newest_per_device_specC1 (items : List RemoteClip) : List (String × RemoteClip) :=
  items.foldl
    (fun acc it =>
      if lookupDid (getDid it) acc = none then acc ++ [(getDid it, it)] else acc) []

/-- `chooseClip` on non-empty `priority` and `items` exactly as claim C1
words it: scan `priority` for the first device_id present in the literal
per-device mapping, fall back to `items[0]`. -/
def choose_clip_specC1 (priority : List String) (items : List RemoteClip) : Option RemoteClip :=
  match scanPriority (newest_per_device_specC1 items) priority with
  | some it => some it
  | none => items.head?

/-- The per-device mapping as amended: first occurrence of each NON-EMPTY
device_id; items with a missing or empty device_id never enter the mapping. -/
def newest_per_device_amended (items : List RemoteClip) : List (String × RemoteClip) :=
  items.foldl
    (fun acc it =>
      if getDid it ≠ "" ∧ lookupDid (getDid it) acc = none then
        acc ++ [(getDid it, it)]
      else acc) []

/-- Claim C1 as amended: scan `priority` over the amended mapping,
fall back to `items[0]`. -/
def choose_clip_amendedC1 (priority : List String) (items : List RemoteClip) : Option RemoteClip :=
  match scanPriority (newest_per_device_amended items) priority with
  | some it => some it
  | none => items.head?

/-- Every entry of the accumulator-extended fold satisfies: its key is the
(non-empty) device_id of its value. -/
theorem npd_fold_inv (items : List RemoteClip) (acc : List (String × RemoteClip))
    (hacc : ∀ x ∈ acc, x.1 ≠ "" ∧ getDid x.2 = x.1) :
    ∀ x ∈ items.foldl npdStep acc, x.1 ≠ "" ∧ getDid x.2 = x.1 := by
  induction items generalizing acc with
  | nil => simpa using hacc
  | cons it rest ih =>
    intro x hx
    refine ih (npdStep acc it) ?_ x hx
    intro y hy
    unfold npdStep at hy
    by_cases hcond : getDid it ≠ "" ∧ lookupDid (getDid it) acc = none
    · rw [if_pos hcond] at hy
      rcases List.mem_append.mp hy with hy | hy
      · exact hacc y hy
      · rw [List.mem_singleton] at hy
        subst hy
        exact ⟨hcond.1, rfl⟩
    · rw [if_neg hcond] at hy
      exact hacc y hy

/-- A successful lookup returns a member of the association list. -/
theorem lookupDid_mem (did : String) (m : List (String × RemoteClip)) (it : RemoteClip)
    (h : lookupDid did m = some it) : (did, it) ∈ m := by
  induction m with
  | nil => simp [lookupDid] at h
  | cons kv rest ih =>
    rcases kv with ⟨k, v⟩
    unfold lookupDid at h
    by_cases hk : k = did
    · subst hk
      rw [if_pos rfl] at h
      cases h
      exact List.mem_cons_self _ _
    · rw [if_neg hk] at h
      exact List.mem_cons_of_mem _ (ih h)

/-- A successful priority scan returns a value stored in the mapping. -/
theorem scanPriority_mem (m : List (String × RemoteClip)) (p : List String) (it : RemoteClip)
    (h : scanPriority m p = some it) : ∃ did, (did, it) ∈ m := by
  induction p with
  | nil => simp [scanPriority] at h
  | cons did rest ih =>
    unfold scanPriority at h
    cases hl : lookupDid did m with
    | some v =>
      rw [hl] at h
      cases h
      exact ⟨did, lookupDid_mem did m it hl⟩
    | none =>
      rw [hl] at h
      exact ih h

/-- Any clip produced by the priority scan over `newest_per_device` has a
non-empty device_id. -/
theorem scan_newest_per_device_did_ne (items : List RemoteClip) (p : List String)
    (it : RemoteClip) (h : scanPriority (newest_per_device items) p = some it) :
    getDid it ≠ "" := by
  obtain ⟨did, hmem⟩ := scanPriority_mem _ _ _ h
  have hinv := npd_fold_inv items [] (by simp) (did, it) hmem
  intro hdid
  exact hinv.1 (hinv.2 ▸ hdid)

/-- C1 counterexample: with `priority = [""]` and
`items = [{device_id:"a", clip_id:1}, {device_id:"", clip_id:2}]`,
the literal spec mapping contains the empty device_id and the spec scan
selects clip 2, but `choose_clip` returns clip 1 (the `items[0]` fallback):
the claim's description of the mapping does not hold of the code. -/
theorem C1_counterexample :
    choose_clip [""] [⟨some "a", 1⟩, ⟨some "", 2⟩] ≠
      choose_clip_specC1 [""] [⟨some "a", 1⟩, ⟨some "", 2⟩] := by
  decide

/-- C1 (amended): for non-empty `priority` and non-empty `items`,
`choose_clip` scans `priority` over the per-device mapping that keeps only
the first occurrence of each NON-EMPTY device_id in items order, and falls
back to `items[0]` when no priority device_id is present in that mapping. -/
theorem C1_amended_choose_clip_eq_spec (priority : List String) (items : List RemoteClip)
    (hp : priority ≠ []) (hi : items ≠ []) :
    choose_clip priority items = choose_clip_amendedC1 priority items := by
  unfold choose_clip choose_clip_amendedC1
  rw [if_neg (by simpa using hi), if_neg (by simpa using hp)]
  have hmap : newest_per_device items = newest_per_device_amended items := rfl
  rw [hmap]

/-- C1 witness: the spec's own scenario. `items` newest-first with clip ids
1 (phone), 2 (laptop), 3 (phone) and `priority = ["laptop", "phone"]`:
both sides pick clip 2, and the shadowed clip 3 is not returned. -/
theorem C1_witness :
    choose_clip ["laptop", "phone"]
        [⟨some "phone", 1⟩, ⟨some "laptop", 2⟩, ⟨some "phone", 3⟩] =
      choose_clip_amendedC1 ["laptop", "phone"]
        [⟨some "phone", 1⟩, ⟨some "laptop", 2⟩, ⟨some "phone", 3⟩] ∧
    choose_clip ["laptop", "phone"]
        [⟨some "phone", 1⟩, ⟨some "laptop", 2⟩, ⟨some "phone", 3⟩] =
      some ⟨some "laptop", 2⟩ :=
  ⟨C1_amended_choose_clip_eq_spec _ _ (by decide) (by decide), by decide⟩

/-- C8: with an empty priority list and non-empty items, `choose_clip`
returns `items[0]`. -/
theorem C8_empty_priority_head (items : List RemoteClip) (h : items ≠ []) :
    choose_clip [] items = some (items.head h) := by
  unfold choose_clip
  rw [if_neg (by simpa using h)]
  simp [List.head?_eq_head, h]

/-- C8 witness: on the spec's scenario items, empty priority yields clip 1. -/
theorem C8_witness :
    choose_clip [] [⟨some "phone", 1⟩, ⟨some "laptop", 2⟩, ⟨some "phone", 3⟩] =
      some ⟨some "phone", 1⟩ :=
  C8_empty_priority_head [⟨some "phone", 1⟩, ⟨some "laptop", 2⟩, ⟨some "phone", 3⟩]
    (by decide)

/-- C9 counterexample: `choose_clip` with empty priority and one item does
NOT return none — it returns that item, refuting "for every items sequence,
chooseClip with an empty priority sequence returns none". -/
theorem C9_counterexample :
    ¬ (choose_clip [] [⟨some "phone", 1⟩] = none) := by
  decide

/-- C9 (amended): for every priority sequence, `choose_clip` of an empty
items sequence returns none (in particular when the priority sequence is
also empty). -/
theorem C9_amended_empty_items_none (p : List String) :
    choose_clip p [] = none := rfl

/-- C10: with a non-empty priority list, a returned clip whose device_id is
missing or empty can only be the `items[0]` fallback — such items never
enter the per-device mapping, so the priority scan can never select them,
even when a priority entry is the empty string. -/
theorem C10_empty_did_only_fallback (p : List String) (items : List RemoteClip)
    (c : RemoteClip) (hp : p ≠ []) (h : choose_clip p items = some c)
    (hdid : getDid c = "") : items.head? = some c := by
  unfold choose_clip at h
  by_cases hi : items.isEmpty
  · rw [if_pos hi] at h
    cases h
  · rw [if_neg hi, if_neg (by simpa using hp)] at h
    cases hscan : scanPriority (newest_per_device items) p with
    | some it =>
      rw [hscan] at h
      cases h
      exact absurd hdid (scan_newest_per_device_did_ne items p c hscan)
    | none =>
      rw [hscan] at h
      exact h

/-- C10 witness: priority `[""]`, items led by a clip with empty device_id;
`choose_clip` returns that clip, and it is indeed `items[0]`. -/
theorem C10_witness :
    choose_clip [""] [⟨some "", 7⟩, ⟨some "a", 8⟩] = some ⟨some "", 7⟩ ∧
    ([⟨some "", 7⟩, ⟨some "a", 8⟩] : List RemoteClip).head? = some ⟨some "", 7⟩ :=
  ⟨by decide,
   C10_empty_did_only_fallback [""] [⟨some "", 7⟩, ⟨some "a", 8⟩] ⟨some "", 7⟩
     (by decide) (by decide) (by decide)⟩

/-!
Part 2: the Windows selection-capture protocol
(`win_capture_selected_text_preserve_clipboard`, clippy.py lines 202-231,
with `_send_key` lines 125-133, `win_send_ctrl_c` lines 135-139, and the
clipboard accessors lines 164-200).

The OS is modelled by an oracle `WinEnv`: the outcome of the k-th clipboard
read, the outcome of the k-th clipboard write, and the number of events the
k-th `SendInput` call reports as accepted. Each primitive invocation is
recorded in a trace of `Ev` events; `Except.error` models a raised Python
exception.
-/

inductive Ev where
  | readClipboard
  | writeClipboard (s : String)
  | sendKey (vk : Nat) (keyup : Bool)
  | uniKey (code : Nat) (keyup : Bool)
  | readPrimary
  | typeText (s : String)
  | pasteChord
  | sleep (ms : Nat)
deriving Repr, DecidableEq

def isReadEv : Ev → Bool
  | Ev.readClipboard => true
  | _ => false

def isWriteEv : Ev → Bool
  | Ev.writeClipboard _ => true
  | _ => false

/-- Number of clipboard-read calls recorded in a trace. -/
def countReads (tr : List Ev) : Nat :=
  (tr.filter isReadEv).length

/-- Number of clipboard-write calls recorded in a trace. -/
def countWrites (tr : List Ev) : Nat :=
  (tr.filter isWriteEv).length

structure WinEnv where
  sendInputAccepted : Nat → Nat
  readRes : Nat → Except Unit String
  writeOk : Nat → Bool

def VK_CONTROL : Nat := 0x11
def VK_C : Nat := 0x43

/-- `win_get_clipboard_text` (lines 164-179): returns text or raises. -/
def win_get_clipboard_text (env : WinEnv) (k : Nat) : Except Unit String :=
  env.readRes k

/-- `win_set_clipboard_text` (lines 181-200): raises on failure. -/
def win_set_clipboard_text (env : WinEnv) (k : Nat) : Except Unit Unit :=
  if env.writeOk k then Except.ok () else Except.error ()

/-- The local `safe_get` of the capture function (lines 203-207):
`try: return win_get_clipboard_text() except Exception: return ""`. -/
def safe_get (env : WinEnv) (k : Nat) : String :=
  match win_get_clipboard_text env k with
  | Except.ok s => s
  | Except.error _ => ""

/-- The local `safe_set` of the capture function (lines 209-213):
`try: win_set_clipboard_text(s) except Exception: pass` — the outcome of
the write is discarded entirely. -/
def safe_set (env : WinEnv) (k : Nat) : Unit :=
  match win_set_clipboard_text env k with
  | Except.ok _ => ()
  | Except.error _ => ()

/-- `_send_key` (lines 125-133): raises `WinError` unless `SendInput`
reports exactly 1 accepted event. -/
def send_key (env : WinEnv) (k : Nat) : Except Unit Unit :=
  if env.sendInputAccepted k = 1 then Except.ok () else Except.error ()

def chordEvs : List Ev :=
  [Ev.sendKey VK_CONTROL false, Ev.sendKey VK_C false,
   Ev.sendKey VK_C true, Ev.sendKey VK_CONTROL true]

/-- `win_send_ctrl_c` (lines 135-139): four `_send_key` calls in order,
aborting at the first failure (the raised exception propagates). -/
def win_send_ctrl_c (env : WinEnv) : Except Unit Unit × List Ev :=
  match send_key env 0 with
  | Except.error e => (Except.error e, [Ev.sendKey VK_CONTROL false])
  | Except.ok _ =>
    match send_key env 1 with
    | Except.error e => (Except.error e, [Ev.sendKey VK_CONTROL false, Ev.sendKey VK_C false])
    | Except.ok _ =>
      match send_key env 2 with
      | Except.error e =>
        (Except.error e,
         [Ev.sendKey VK_CONTROL false, Ev.sendKey VK_C false, Ev.sendKey VK_C true])
      | Except.ok _ =>
        match send_key env 3 with
        | Except.error e => (Except.error e, chordEvs)
        | Except.ok _ => (Except.ok (), chordEvs)

/-- The polling loop of the capture function (lines 221-226):
`for _ in range(50): time.sleep(0.01); new_text = safe_get(); if new_text != original and new_text != "": break`.
Note `new_text` is overwritten by `safe_get()` on EVERY iteration, whether
or not the break condition holds; the loop returns the last value read.
`k` is the index of the next clipboard read. -/
def pollLoop (env : WinEnv) (original : String) :
    Nat → Nat → String → String × List Ev
  | 0, _, last => (last, [])
  | n + 1, k, _ =>
    if safe_get env k ≠ original ∧ safe_get env k ≠ "" then
      (safe_get env k, [Ev.sleep 10, Ev.readClipboard])
    else
      match pollLoop env original n (k + 1) (safe_get env k) with
      | (r, tr) => (r, Ev.sleep 10 :: Ev.readClipboard :: tr)

/-- `win_capture_selected_text_preserve_clipboard` (lines 202-231):
`original = safe_get()` (read index 0); `win_send_ctrl_c()` — NOT wrapped
in try/except, so its exception propagates; the 50-iteration poll loop
(read indices 1..50); `safe_set(original)` (write index 0, outcome
discarded); return `new_text`. -/
def win_capture (env : WinEnv) : Except Unit String × List Ev :=
  match win_send_ctrl_c env with
  | (Except.error e, tr) => (Except.error e, Ev.readClipboard :: tr)
  | (Except.ok _, tr) =>
    match pollLoop env (safe_get env 0) 50 1 "" with
    | (t, ptr) =>
      match safe_set env 0 with
      | () =>
        (Except.ok t,
         (Ev.readClipboard :: tr) ++ ptr ++ [Ev.writeClipboard (safe_get env 0)])

/-- When all four `SendInput` calls accept their event, the chord succeeds. -/
theorem chord_ok (env : WinEnv) (h : ∀ k, k < 4 → env.sendInputAccepted k = 1) :
    win_send_ctrl_c env = (Except.ok (), chordEvs) := by
  have h0 := h 0 (by norm_num)
  have h1 := h 1 (by norm_num)
  have h2 := h 2 (by norm_num)
  have h3 := h 3 (by norm_num)
  simp [win_send_ctrl_c, send_key, h0, h1, h2, h3]

/-- When every clipboard read fails (hence reads as `""`), the poll loop
ends with the empty string. -/
theorem pollLoop_empty (env : WinEnv) (hsg : ∀ k, safe_get env k = "") :
    ∀ n k, (pollLoop env "" n k "").1 = "" := by
  intro n
  induction n with
  | zero => intro k; rfl
  | succ m ih =>
    intro k
    unfold pollLoop
    rw [hsg k]
    simp
    exact ih (k + 1)

/-- The environment in which the copy chord is rejected by the OS:
the very first `SendInput` call reports 0 accepted events. -/
def envChordFail : WinEnv :=
  { sendInputAccepted := fun _ => 0
    readRes := fun _ => Except.ok "x"
    writeOk := fun _ => true }

/-- C4 counterexample: `win_send_ctrl_c` is not wrapped in any try/except
inside the capture function, so a copy-chord injection failure raises past
the capture boundary — the capture does NOT degrade to an empty capture. -/
theorem C4_counterexample :
    (win_capture envChordFail).1 = Except.error () := rfl

/-- C4 (amended): clipboard read and write failures are caught internally —
whenever the copy chord itself is accepted, the capture returns normally
(never raises), and if every clipboard read fails the capture degrades to
the empty string; but a copy-chord injection failure propagates to the
caller. -/
theorem C4_amended_absorbs_clipboard_failures (env : WinEnv)
    (hch : ∀ k, k < 4 → env.sendInputAccepted k = 1) :
    (∃ t, (win_capture env).1 = Except.ok t) ∧
      ((∀ k, env.readRes k = Except.error ()) →
        (win_capture env).1 = Except.ok "") := by
  have hc := chord_ok env hch
  constructor
  · rcases hp : pollLoop env (safe_get env 0) 50 1 "" with ⟨t, ptr⟩
    exact ⟨t, by simp [win_capture, hc, hp]⟩
  · intro hr
    have hsg : ∀ k, safe_get env k = "" := by
      intro k
      simp [safe_get, win_get_clipboard_text, hr k]
    rcases hp : pollLoop env (safe_get env 0) 50 1 "" with ⟨t, ptr⟩
    have ht : t = "" := by
      have h50 := pollLoop_empty env hsg 50 1
      rw [hsg 0] at hp
      rw [hp] at h50
      exact h50
    simp [win_capture, hc, hp, ht]

/-- C4 witness: with the chord accepted, every clipboard read failing and
the clipboard write failing, the capture still returns — with `""`. -/
theorem C4_witness :
    (∃ t, (win_capture
        { sendInputAccepted := fun _ => 1
          readRes := fun _ => Except.error ()
          writeOk := fun _ => false }).1 = Except.ok t) ∧
      ((∀ k, ({ sendInputAccepted := fun _ => 1
                readRes := fun _ => Except.error ()
                writeOk := fun _ => false } : WinEnv).readRes k = Except.error ()) →
        (win_capture
          { sendInputAccepted := fun _ => 1
            readRes := fun _ => Except.error ()
            writeOk := fun _ => false }).1 = Except.ok "") :=
  C4_amended_absorbs_clipboard_failures
    { sendInputAccepted := fun _ => 1
      readRes := fun _ => Except.error ()
      writeOk := fun _ => false }
    (fun _ _ => rfl)

/-- The environment of the C3 scenario: the clipboard constantly holds
"old" (the copy chord has no observable effect), all primitives succeed. -/
def envStaticClipboard : WinEnv :=
  { sendInputAccepted := fun _ => 1
    readRes := fun _ => Except.ok "old"
    writeOk := fun _ => true }

/-- C3: when the clipboard never changes during the polling window, the
capture does restore exactly once (one clipboard write in the trace), but
it returns the UNCHANGED clipboard content "old" — not the empty string
the specification demands: the loop overwrites `new_text` with `safe_get()`
on every iteration, so the vestigial `new_text = ""` initialisation is
dead and the stale clipboard text is reported as captured. -/
theorem C3_stale_text_returned :
    (win_capture envStaticClipboard).1 = Except.ok "old" ∧
      (win_capture envStaticClipboard).1 ≠ Except.ok "" ∧
      countWrites (win_capture envStaticClipboard).2 = 1 := by
  refine ⟨rfl, ?_, rfl⟩
  intro h
  have : "old" = "" := Except.ok.inj ((rfl : (win_capture envStaticClipboard).1 = Except.ok "old") ▸ h)
  simp at this

/-!
Part 3: the non-Windows primitives, the `send` capture step, and the
injection step of `fetch` (clippy.py lines 235-272, 275-372, 376-383,
450-472).

`UnixEnv` is the oracle for the subprocess-backed primitives: which CLI
tools are installed, the clipboard content at operation start, whether
each primitive's process succeeds (`writeOk` is indexed by write call:
0 = payload write, 1 = restore write), and what the X11 primary selection
holds.
-/

inductive SysName where
  | windows
  | darwin
  | linux
deriving Repr, DecidableEq

structure UnixEnv where
  hasWlPaste : Bool
  hasXclip : Bool
  hasXsel : Bool
  hasXdotool : Bool
  clipboard : String
  readOk : Bool
  writeOk : Nat → Bool
  pasteOk : Bool
  typeOk : Bool
  primaryRes : Except Unit String

/-- `x11_get_primary_text` (lines 235-239): `xclip -selection primary -o`,
any failure swallowed into `""`. Defined in the source but never called
by `send` or `fetch`. -/
def x11_get_primary_text (env : UnixEnv) : String :=
  match env.primaryRes with
  | Except.ok s => s
  | Except.error _ => ""

/-- `clipboard_get_text` (lines 275-290): pbpaste on darwin, powershell on
windows, wl-paste/xclip/xsel on linux (RuntimeError when none exists).
`clip` is the clipboard content at call time. -/
def clipboard_get_text (p : SysName) (env : UnixEnv) (clip : String) :
    Except Unit String × List Ev :=
  match p with
  | SysName.darwin =>
    ((if env.readOk then Except.ok clip else Except.error ()), [Ev.readClipboard])
  | SysName.windows =>
    ((if env.readOk then Except.ok clip else Except.error ()), [Ev.readClipboard])
  | SysName.linux =>
    if env.hasWlPaste || env.hasXclip || env.hasXsel then
      ((if env.readOk then Except.ok clip else Except.error ()), [Ev.readClipboard])
    else (Except.error (), [])

/-- `clipboard_set_text` (lines 293-347): the k-th clipboard write of an
operation. On darwin/windows the helper runs with `check=True`, so a
failing tool raises and the clipboard keeps its old content; on linux the
xclip/xsel process is detached (`Popen`, bounded wait, kill) and a failure
is silent; with no tool at all, RuntimeError. Returns (outcome, clipboard
content afterwards, trace). -/
def clipboard_set_text (p : SysName) (env : UnixEnv) (k : Nat)
    (clip text : String) : Except Unit Unit × String × List Ev :=
  match p with
  | SysName.darwin =>
    if env.writeOk k then (Except.ok (), text, [Ev.writeClipboard text])
    else (Except.error (), clip, [Ev.writeClipboard text])
  | SysName.windows =>
    if env.writeOk k then (Except.ok (), text, [Ev.writeClipboard text])
    else (Except.error (), clip, [Ev.writeClipboard text])
  | SysName.linux =>
    if env.hasXclip || env.hasXsel then
      (Except.ok (), if env.writeOk k then text else clip, [Ev.writeClipboard text])
    else (Except.error (), clip, [])

/-- `paste_active_window` (lines 350-372): osascript keystroke on darwin,
`xdotool key ctrl+v` on linux when available, RuntimeError otherwise. -/
def paste_active_window (p : SysName) (env : UnixEnv) : Except Unit Unit × List Ev :=
  match p with
  | SysName.darwin =>
    ((if env.pasteOk then Except.ok () else Except.error ()), [Ev.pasteChord])
  | SysName.linux =>
    if env.hasXdotool then
      ((if env.pasteOk then Except.ok () else Except.error ()), [Ev.pasteChord])
    else (Except.error (), [])
  | SysName.windows => (Except.error (), [])

/-- The capture step of the `send` command (lines 379-383):
`win_capture_selected_text_preserve_clipboard()` on windows, otherwise a
plain `clipboard_get_text()`. -/
def send_capture (p : SysName) (wenv : WinEnv) (env : UnixEnv) :
    Except Unit String × List Ev :=
  match p with
  | SysName.windows => win_capture wenv
  | _ => clipboard_get_text p env env.clipboard

/-- The keyboard events of `win_type_text` (lines 141-162): per character
a KEYEVENTF_UNICODE down event then an up event. -/
def uniEvs : List Char → List Ev
  | [] => []
  | c :: rest => Ev.uniKey c.toNat false :: Ev.uniKey c.toNat true :: uniEvs rest

/-- `win_type_text` (lines 141-162): the `SendInput` return values are
ignored, so this primitive never raises and never touches the clipboard. -/
def win_type_text (text : String) : List Ev :=
  uniEvs text.toList

/-- `x11_type_text` (lines 267-271): `xdotool type` with `check=True`, so
a failing process raises. -/
def x11_type_text (env : UnixEnv) (text : String) : Except Unit Unit × List Ev :=
  ((if env.typeOk then Except.ok () else Except.error ()), [Ev.typeText text])

/-- The clipboard-mediated paste path of `fetch` (lines 463-470):
`original = clipboard_get_text(); clipboard_set_text(text); sleep(0.03); paste_active_window(); sleep(0.05); clipboard_set_text(original)` —
none of it wrapped in try/except. Returns (outcome, final clipboard, trace). -/
def fetch_paste (p : SysName) (env : UnixEnv) (text : String) :
    Except Unit Unit × String × List Ev :=
  match clipboard_get_text p env env.clipboard with
  | (Except.error e, tr0) => (Except.error e, env.clipboard, tr0)
  | (Except.ok original, tr0) =>
    match clipboard_set_text p env 0 env.clipboard text with
    | (Except.error e, clip1, tr1) => (Except.error e, clip1, tr0 ++ tr1)
    | (Except.ok _, clip1, tr1) =>
      match paste_active_window p env with
      | (Except.error e, tr2) =>
        (Except.error e, clip1, tr0 ++ tr1 ++ [Ev.sleep 30] ++ tr2)
      | (Except.ok _, tr2) =>
        match clipboard_set_text p env 1 clip1 original with
        | (res, clip2, tr3) =>
          (res, clip2, tr0 ++ tr1 ++ [Ev.sleep 30] ++ tr2 ++ [Ev.sleep 50] ++ tr3)

/-- The injection step of `fetch` (lines 450-472): windows types the text
directly (`win_type_text`), linux with xdotool types directly
(`x11_type_text`), otherwise the macOS clipboard-swap fallback. Returns
(outcome, final clipboard, trace). -/
def fetch_inject (p : SysName) (env : UnixEnv) (text : String) :
    Except Unit Unit × String × List Ev :=
  match p with
  | SysName.windows => (Except.ok (), env.clipboard, win_type_text text)
  | SysName.linux =>
    if env.hasXdotool then
      match x11_type_text env text with
      | (r, tr) => (r, env.clipboard, tr)
    else fetch_paste SysName.linux env text
  | SysName.darwin => fetch_paste SysName.darwin env text

/-- Direct Unicode typing submits no clipboard events at all. -/
theorem uniEvs_no_clipboard (l : List Char) :
    (uniEvs l).filter isReadEv = [] ∧ (uniEvs l).filter isWriteEv = [] := by
  induction l with
  | nil => exact ⟨rfl, rfl⟩
  | cons c rest ih =>
    unfold uniEvs
    simp [List.filter, isReadEv, isWriteEv, ih.1, ih.2]

/-- A Linux environment for the C2 scenario: xclip and xdotool installed,
the clipboard holds "clip", the user has highlighted "sel" (so the X11
primary selection reads "sel"), every primitive healthy. -/
def envLinuxSel : UnixEnv :=
  { hasWlPaste := false
    hasXclip := true
    hasXsel := false
    hasXdotool := true
    clipboard := "clip"
    readOk := true
    writeOk := fun _ => true
    pasteOk := true
    typeOk := true
    primaryRes := Except.ok "sel" }

/-- A Windows oracle in which every primitive succeeds (unused by the
non-Windows branch of `send`). -/
def winEnvHealthy : WinEnv :=
  { sendInputAccepted := fun _ => 1
    readRes := fun _ => Except.ok ""
    writeOk := fun _ => true }

/-- C2: on Linux the capture step of `send` performs exactly one direct
clipboard read and returns the clipboard content "clip": it never consults
the X11 primary selection (which holds "sel" and would be returned by the
never-called `x11_get_primary_text`), and injects no copy chord — the
trace is a single `readClipboard` event with no `readPrimary` and no
`sendKey` events. -/
theorem C2_linux_send_ignores_primary_selection :
    send_capture SysName.linux winEnvHealthy envLinuxSel =
        (Except.ok "clip", [Ev.readClipboard]) ∧
      x11_get_primary_text envLinuxSel = "sel" := ⟨rfl, rfl⟩

/-- C5: whenever the clipboard-mediated paste path of `fetch` succeeds, the
clipboard ends equal to its pre-injection value, and the trace is exactly:
one clipboard read, the payload write, the ~30 ms settle delay, the paste
chord, the ~50 ms delay, and the restoring write of the original content —
two writes and one read in that order. -/
theorem C5_paste_path_preserves_clipboard (env : UnixEnv) (text : String)
    (h : (fetch_inject SysName.darwin env text).1 = Except.ok ()) :
    (fetch_inject SysName.darwin env text).2.1 = env.clipboard ∧
      (fetch_inject SysName.darwin env text).2.2 =
        [Ev.readClipboard, Ev.writeClipboard text, Ev.sleep 30, Ev.pasteChord,
         Ev.sleep 50, Ev.writeClipboard env.clipboard] ∧
      countWrites (fetch_inject SysName.darwin env text).2.2 = 2 ∧
      countReads (fetch_inject SysName.darwin env text).2.2 = 1 := by
  cases hR : env.readOk
  · exfalso
    simp [fetch_inject, fetch_paste, clipboard_get_text, hR] at h
  · cases hW0 : env.writeOk 0
    · exfalso
      simp [fetch_inject, fetch_paste, clipboard_get_text, clipboard_set_text,
        hR, hW0] at h
    · cases hP : env.pasteOk
      · exfalso
        simp [fetch_inject, fetch_paste, clipboard_get_text, clipboard_set_text,
          paste_active_window, hR, hW0, hP] at h
      · cases hW1 : env.writeOk 1
        · exfalso
          simp [fetch_inject, fetch_paste, clipboard_get_text, clipboard_set_text,
            paste_active_window, hR, hW0, hP, hW1] at h
        · simp [fetch_inject, fetch_paste, clipboard_get_text, clipboard_set_text,
            paste_active_window, hR, hW0, hP, hW1, countWrites, countReads,
            List.filter, isReadEv, isWriteEv]

/-- A healthy environment (all tools present, all primitives succeed)
holding "before" on the clipboard. -/
def unixEnvHealthy : UnixEnv :=
  { hasWlPaste := true
    hasXclip := true
    hasXsel := true
    hasXdotool := true
    clipboard := "before"
    readOk := true
    writeOk := fun _ => true
    pasteOk := true
    typeOk := true
    primaryRes := Except.ok "" }

/-- C5 witness: a concrete successful paste of "hi" over clipboard
"before" — restored, two writes, one read. -/
theorem C5_witness :
    (fetch_inject SysName.darwin unixEnvHealthy "hi").2.1 = unixEnvHealthy.clipboard ∧
      (fetch_inject SysName.darwin unixEnvHealthy "hi").2.2 =
        [Ev.readClipboard, Ev.writeClipboard "hi", Ev.sleep 30, Ev.pasteChord,
         Ev.sleep 50, Ev.writeClipboard unixEnvHealthy.clipboard] ∧
      countWrites (fetch_inject SysName.darwin unixEnvHealthy "hi").2.2 = 2 ∧
      countReads (fetch_inject SysName.darwin unixEnvHealthy "hi").2.2 = 1 :=
  C5_paste_path_preserves_clipboard unixEnvHealthy "hi" rfl

/-- C6: on both direct-typing paths of `fetch` (windows `win_type_text`,
linux-with-xdotool `x11_type_text`) the trace contains no clipboard read
and no clipboard write, and the clipboard content is unchanged. -/
theorem C6_direct_typing_never_touches_clipboard (p : SysName) (env : UnixEnv)
    (text : String)
    (h : p = SysName.windows ∨ (p = SysName.linux ∧ env.hasXdotool = true)) :
    countReads (fetch_inject p env text).2.2 = 0 ∧
      countWrites (fetch_inject p env text).2.2 = 0 ∧
      (fetch_inject p env text).2.1 = env.clipboard := by
  rcases h with h | ⟨h, hx⟩
  · subst h
    have hu := uniEvs_no_clipboard text.toList
    refine ⟨?_, ?_, rfl⟩
    · show countReads (win_type_text text) = 0
      unfold countReads win_type_text
      rw [hu.1]
      rfl
    · show countWrites (win_type_text text) = 0
      unfold countWrites win_type_text
      rw [hu.2]
      rfl
  · subst h
    simp [fetch_inject, hx, x11_type_text, countReads, countWrites,
      List.filter, isReadEv, isWriteEv]

/-- C6 witness: typing "hi" on windows — zero clipboard calls, clipboard
unchanged. -/
theorem C6_witness :
    countReads (fetch_inject SysName.windows unixEnvHealthy "hi").2.2 = 0 ∧
      countWrites (fetch_inject SysName.windows unixEnvHealthy "hi").2.2 = 0 ∧
      (fetch_inject SysName.windows unixEnvHealthy "hi").2.1 =
        unixEnvHealthy.clipboard :=
  C6_direct_typing_never_touches_clipboard SysName.windows unixEnvHealthy "hi"
    (Or.inl rfl)

/-- The darwin environment in which only the final restore write fails:
the payload write (index 0) succeeds, the restore write (index 1) fails. -/
def envRestoreFail : UnixEnv :=
  { hasWlPaste := false
    hasXclip := false
    hasXsel := false
    hasXdotool := false
    clipboard := "before"
    readOk := true
    writeOk := fun k => k == 0
    pasteOk := true
    typeOk := true
    primaryRes := Except.ok "" }

/-- C7 counterexample: on the clipboard-mediated injection path of `fetch`
the final restore write is NOT wrapped in any try/except — when only the
restore fails, the whole injection raises to the caller, refuting
"restore failures are never propagated on either path". -/
theorem C7_counterexample :
    (fetch_inject SysName.darwin envRestoreFail "x").1 = Except.error () := rfl

/-- C7 (amended): a restore failure is absorbed on the capture path — with
the copy chord accepted and the restoring clipboard write failing, the
Windows capture still returns normally; but on the clipboard-mediated
injection path of `fetch`, a failure of the final restore write escalates
to the caller like any other injection failure. -/
theorem C7_amended_restore_absorbed_only_in_capture :
    (∀ wenv : WinEnv, (∀ k, k < 4 → wenv.sendInputAccepted k = 1) →
      wenv.writeOk 0 = false → ∃ t, (win_capture wenv).1 = Except.ok t) ∧
      (∀ (env : UnixEnv) (text : String), env.readOk = true →
        env.writeOk 0 = true → env.pasteOk = true → env.writeOk 1 = false →
        (fetch_inject SysName.darwin env text).1 = Except.error ()) := by
  constructor
  · intro wenv hch _
    have hc := chord_ok wenv hch
    rcases hp : pollLoop wenv (safe_get wenv 0) 50 1 "" with ⟨t, ptr⟩
    exact ⟨t, by simp [win_capture, hc, hp]⟩
  · intro env text hR hW0 hP hW1
    simp [fetch_inject, fetch_paste, clipboard_get_text, clipboard_set_text,
      paste_active_window, hR, hW0, hP, hW1]

/-- The Windows oracle in which the chord is accepted but every clipboard
write (the restore included) fails. -/
def winEnvWriteFail : WinEnv :=
  { sendInputAccepted := fun _ => 1
    readRes := fun _ => Except.ok "keep"
    writeOk := fun _ => false }

/-- C7 witness: the capture returns normally despite its failing restore
write, and the concrete fetch paste with a failing restore raises. -/
theorem C7_witness :
    (∃ t, (win_capture winEnvWriteFail).1 = Except.ok t) ∧
      (fetch_inject SysName.darwin envRestoreFail "x").1 = Except.error () :=
  ⟨C7_amended_restore_absorbed_only_in_capture.1 winEnvWriteFail
      (fun _ _ => rfl) rfl,
    C7_amended_restore_absorbed_only_in_capture.2 envRestoreFail "x"
      rfl rfl rfl rfl⟩
